import Mathlib

/-!
Verification of the rule modules of `eslint-plugin-functional`:
`src/rules/functional-parameters.ts` and `src/rules/no-promise-reject.ts`,
together with the framework pieces the spec describes (ignore-pattern
matching, option validation).  The AST node shapes are embedded as closed
inductive types covering exactly the shapes the two rules inspect.
-/

/-- The rule context (host-owned; exposes the active file path). -/
structure RuleContext where
  filename : String
deriving DecidableEq, Repr

/-- The per-node result contract returned by every handler:
`\x7b context, descriptors \x7d`. -/
structure RuleResult (Desc : Type) where
  context : RuleContext
  descriptors : List Desc
deriving DecidableEq, Repr

/-- A function parameter node.  `restElement` is a rest-style parameter
(`...name`); `identifierParam` a plain named parameter; `otherParam` any
other pattern shape (destructuring etc.). -/
inductive Param
  | identifierParam (name : String)
  | restElement (name : String)
  | otherParam
deriving DecidableEq, Repr

/-- Modelled from the spec: `isRestElement` from `~/util/typeguard` is not
under `src/`.  A variant-safe node predicate: tests whether the node is a
rest-parameter node, returning false for every other shape. -/
def isRestElement : Param → Bool
  | Param.restElement _ => true
  | _ => false

/-- The lexical position of a function node relative to its parent,
as far as the rules inspect it: either the function is the callee of a
call expression that immediately invokes it, or it is anywhere else. -/
inductive FunctionParentContext
  | calleeOfImmediateCall
  | otherContext
deriving DecidableEq, Repr

/-- A function node (`FunctionDeclaration`, `FunctionExpression` or
`ArrowFunctionExpression`): an optional bound name, the parameter list,
and its position relative to its parent. -/
structure FunctionNode where
  id : Option String
  params : List Param
  parentContext : FunctionParentContext
deriving DecidableEq, Repr

/-- Modelled from the spec: `isIIFE` from `~/util/tree` is not under
`src/`.  Context predicate: is this function node the callee of an
immediately-invoked call (parent is a call expression whose callee is
this node)? -/
def isIIFE (node : FunctionNode) : Bool :=
  node.parentContext = FunctionParentContext.calleeOfImmediateCall

/-- The derived identifying name of a function node, when applicable. -/
def FunctionNode.derivedName (node : FunctionNode) : Option String :=
  node.id

/-- The lexical position of an identifier node relative to its parent:
used as a property key, used as the property of a member access, or a
plain value reference. -/
inductive IdentifierParentContext
  | propertyKeySlot
  | memberPropertySlot
  | valueReference
deriving DecidableEq, Repr

/-- An identifier node: its text and its position relative to its parent. -/
structure Identifier where
  name : String
  parentContext : IdentifierParentContext
deriving DecidableEq, Repr

/-- Modelled from the spec: `isPropertyName` from `~/util/tree` is not
under `src/`.  Is this identifier used as a property key rather than a
value reference (decided from the immediate parent shape)? -/
def isPropertyName (node : Identifier) : Bool :=
  node.parentContext = IdentifierParentContext.propertyKeySlot

/-- Modelled from the spec: `isPropertyAccess` from `~/util/tree` is not
under `src/`.  Is this identifier the property slot of a member access? -/
def isPropertyAccess (node : Identifier) : Bool :=
  node.parentContext = IdentifierParentContext.memberPropertySlot

/-- Modelled from the spec: `shouldIgnorePattern` from
`~/common/ignore-options` is not under `src/`.  Given the node's derived
name, the context, and the configured ignore patterns, returns true iff
some configured pattern matches the derived name exactly; a node with no
derivable name never matches, and an absent pattern list ignores
nothing. -/
def shouldIgnorePattern (derivedName : Option String) (_context : RuleContext)
    (ignorePattern : Option (List String)) : Bool :=
  match ignorePattern, derivedName with
  | some patterns, some name => patterns.any (fun p => p = name)
  | _, _ => false

/-- The parameter count options (`"atLeastOne" | "exactlyOne"`). -/
inductive ParameterCountOptions
  | atLeastOne
  | exactlyOne
deriving DecidableEq, Repr

/-- The `enforceParameterCount` option union:
`ParameterCountOptions | false | \x7bcount, ignoreIIFE\x7d`. -/
inductive EnforceParameterCount
  | off
  | simple (c : ParameterCountOptions)
  | obj (count : ParameterCountOptions) (ignoreIIFE : Bool)
deriving DecidableEq, Repr

/-- `typeof enforceParameterCount === "object" && enforceParameterCount.ignoreIIFE`. -/
def EnforceParameterCount.ignoreTheIIFE : EnforceParameterCount → Bool
  | EnforceParameterCount.obj _ i => i
  | _ => false

/-- `enforceParameterCount === "atLeastOne" ||
(typeof enforceParameterCount === "object" && enforceParameterCount.count === "atLeastOne")`. -/
def EnforceParameterCount.countIsAtLeastOne : EnforceParameterCount → Bool
  | EnforceParameterCount.simple ParameterCountOptions.atLeastOne => true
  | EnforceParameterCount.obj ParameterCountOptions.atLeastOne _ => true
  | _ => false

/-- `enforceParameterCount === "exactlyOne" ||
(typeof enforceParameterCount === "object" && enforceParameterCount.count === "exactlyOne")`. -/
def EnforceParameterCount.countIsExactlyOne : EnforceParameterCount → Bool
  | EnforceParameterCount.simple ParameterCountOptions.exactlyOne => true
  | EnforceParameterCount.obj ParameterCountOptions.exactlyOne _ => true
  | _ => false

/-- The single options record of the functional-parameters rule
(the ignore-pattern fields together with the rule-specific fields). -/
structure FPOptionsObject where
  ignorePattern : Option (List String)
  allowRestParameter : Bool
  allowArgumentsKeyword : Bool
  enforceParameterCount : EnforceParameterCount
deriving DecidableEq, Repr

/-- `Options` of functional-parameters: a fixed-arity one-element tuple
holding the options record (`readonly [\x7b...\x7d]`). -/
structure FPOptions where
  obj : FPOptionsObject
deriving DecidableEq, Repr

/-- The default options of functional-parameters. -/
def fpDefaultOptions : FPOptions :=
  { obj :=
      { ignorePattern := none
        allowRestParameter := false
        allowArgumentsKeyword := false
        enforceParameterCount :=
          EnforceParameterCount.obj ParameterCountOptions.atLeastOne true } }

/-- The message catalog keys of functional-parameters. -/
inductive FPMessageId
  | restParam
  | arguments
  | paramCountAtLeastOne
  | paramCountExactlyOne
deriving DecidableEq, Repr

/-- A descriptor target of functional-parameters: the function node, one
of its parameters, or an identifier node. -/
inductive FPTarget
  | func (f : FunctionNode)
  | param (p : Param)
  | ident (i : Identifier)
deriving DecidableEq, Repr

/-- A reported violation: its target node and its message catalog key. -/
structure FPDescriptor where
  node : FPTarget
  messageId : FPMessageId
deriving DecidableEq, Repr

/-- `getRestParamViolations` of functional-parameters: reports the final
parameter when it is a rest element and `allowRestParameter` is false
(`node.params[node.params.length - 1]` guarded by `node.params.length > 0`). -/
def getRestParamViolations (options : FPOptions) (node : FunctionNode) :
    List FPDescriptor :=
  match node.params.getLast? with
  | some lastP =>
      if options.obj.allowRestParameter = false ∧ isRestElement lastP = true then
        [{ node := FPTarget.param lastP, messageId := FPMessageId.restParam }]
      else []
  | none => []

/-- `getParamCountViolations` of functional-parameters: the enforcement
is skipped when it is `false`, or when the function has zero parameters,
the object form sets `ignoreIIFE`, and the node is an IIFE; otherwise a
zero-parameter function violates "atLeastOne" and a non-one-parameter
function violates "exactlyOne". -/
def getParamCountViolations (options : FPOptions) (node : FunctionNode) :
    List FPDescriptor :=
  if options.obj.enforceParameterCount = EnforceParameterCount.off ∨
      (node.params.length = 0 ∧
        options.obj.enforceParameterCount.ignoreTheIIFE = true ∧
        isIIFE node = true) then
    []
  else if node.params.length = 0 ∧
      options.obj.enforceParameterCount.countIsAtLeastOne = true then
    [{ node := FPTarget.func node, messageId := FPMessageId.paramCountAtLeastOne }]
  else if node.params.length ≠ 1 ∧
      options.obj.enforceParameterCount.countIsExactlyOne = true then
    [{ node := FPTarget.func node, messageId := FPMessageId.paramCountExactlyOne }]
  else []

/-- `checkFunction` of functional-parameters: short-circuits to an empty
result when the ignore pattern matches; otherwise concatenates the
rest-parameter violations and the parameter-count violations. -/
def checkFunction (node : FunctionNode) (context : RuleContext)
    (options : FPOptions) : RuleResult FPDescriptor :=
  if shouldIgnorePattern node.derivedName context options.obj.ignorePattern then
    { context := context, descriptors := [] }
  else
    { context := context
      descriptors :=
        getRestParamViolations options node ++ getParamCountViolations options node }

/-- `checkIdentifier` of functional-parameters: short-circuits to an
empty result when the ignore pattern matches; otherwise reports the
`arguments` keyword used as a value reference when
`allowArgumentsKeyword` is false. -/
def checkIdentifier (node : Identifier) (context : RuleContext)
    (options : FPOptions) : RuleResult FPDescriptor :=
  if shouldIgnorePattern (some node.name) context options.obj.ignorePattern then
    { context := context, descriptors := [] }
  else
    { context := context
      descriptors :=
        if options.obj.allowArgumentsKeyword = false ∧ node.name = "arguments" ∧
            isPropertyName node = false ∧ isPropertyAccess node = false then
          [{ node := FPTarget.ident node, messageId := FPMessageId.arguments }]
        else [] }

/-- An expression node, covering the shapes the no-promise-reject rule
inspects: identifiers, literals (as in the computed access
`Promise["reject"]`), member accesses, and an opaque remainder. -/
inductive Expression
  | identifier (name : String)
  | literal (raw : String)
  | memberExpression (object property : Expression)
  | otherExpression
deriving DecidableEq, Repr

/-- Modelled from the spec: `isIdentifier` from `~/util/typeguard` is not
under `src/`.  Variant-safe tag test for identifier nodes. -/
def isIdentifier : Expression → Bool
  | Expression.identifier _ => true
  | _ => false

/-- Modelled from the spec: `isMemberExpression` from `~/util/typeguard`
is not under `src/`.  Variant-safe tag test for member-access nodes. -/
def isMemberExpression : Expression → Bool
  | Expression.memberExpression _ _ => true
  | _ => false

/-- The name of an expression when it is an identifier node
(`e.name`, read only under an `isIdentifier` guard). -/
def Expression.identName : Expression → Option String
  | Expression.identifier n => some n
  | _ => none

/-- A call-expression node: its callee and its argument list. -/
structure CallExpression where
  callee : Expression
  arguments : List Expression
deriving DecidableEq, Repr

/-- The message catalog keys of no-promise-reject. -/
inductive NPRMessageId
  | generic
deriving DecidableEq, Repr

/-- A reported violation of no-promise-reject: the call-expression node
and its message catalog key. -/
structure NPRDescriptor where
  node : CallExpression
  messageId : NPRMessageId
deriving DecidableEq, Repr

/-- The condition of `checkCallExpression`:
`isMemberExpression(node.callee) && isIdentifier(node.callee.object) &&
isIdentifier(node.callee.property) && node.callee.object.name === "Promise"
&& node.callee.property.name === "reject"` (the object and property slots
are read only under the member-expression guard). -/
def calleeIsPromiseReject (callee : Expression) : Bool :=
  isMemberExpression callee &&
    (match callee with
      | Expression.memberExpression o p =>
          isIdentifier o && isIdentifier p &&
          o.identName == some "Promise" && p.identName == some "reject"
      | _ => false)

/-- `checkCallExpression` of no-promise-reject: reports the call when
its callee is a member access whose object and property are both
identifier nodes named `Promise` and `reject` respectively. -/
def checkCallExpression (node : CallExpression) (context : RuleContext) :
    RuleResult NPRDescriptor :=
  { context := context
    descriptors :=
      if calleeIsPromiseReject node.callee then
        [{ node := node, messageId := NPRMessageId.generic }]
      else [] }

/-- A JSON-compatible configuration value, as accepted at the option
schema boundary. -/
inductive JsonValue
  | str (s : String)
  | bool (b : Bool)
  | num (n : Int)
  | obj (fields : List (String × JsonValue))
  | arr (items : List JsonValue)
  | null

/-- Whether a JSON value satisfies one alternative of the
`enforceParameterCount` `oneOf` schema of functional-parameters:
`\x7btype: "boolean", enum: [false]\x7d`. -/
def matchesFalseAlternative : JsonValue → Bool
  | JsonValue.bool b => b = false
  | _ => false

/-- Whether a JSON value satisfies the string alternative of the
`enforceParameterCount` schema:
`\x7btype: "string", enum: ["atLeastOne", "exactlyOne"]\x7d`. -/
def matchesStringAlternative : JsonValue → Bool
  | JsonValue.str s => s = "atLeastOne" ∨ s = "exactlyOne"
  | _ => false

/-- Whether one object field is admitted by the object alternative of
the `enforceParameterCount` schema: `count` must be one of the two count
strings, `ignoreIIFE` must be a boolean, and `additionalProperties:
false` rejects every other key. -/
def validCountObjectField : String × JsonValue → Bool
  | (key, value) =>
      (key = "count" ∧ matchesStringAlternative value = true) ∨
      (key = "ignoreIIFE" ∧ (match value with
        | JsonValue.bool _ => true
        | _ => false) = true)

/-- Whether a JSON value satisfies the object alternative of the
`enforceParameterCount` schema (all present fields admitted; JSON Schema
declares no required fields). -/
def matchesObjectAlternative : JsonValue → Bool
  | JsonValue.obj fields => fields.all validCountObjectField
  | _ => false

/-- Whether a JSON value satisfies the declared `oneOf` schema of the
`enforceParameterCount` option (the three alternatives are disjoint by
JSON type, so `oneOf` coincides with satisfying some alternative). -/
def validEnforceParameterCount (v : JsonValue) : Bool :=
  matchesFalseAlternative v || matchesStringAlternative v ||
    matchesObjectAlternative v

/-- The fatal configuration error surfaced at rule activation, naming
the rule and the offending option path. -/
structure ConfigurationError where
  ruleName : String
  optionPath : String
deriving DecidableEq, Repr

/-- Modelled from the spec: the option-validation step of `createRule`
(from `~/util/rule`, not under `src/`) validates the raw user value
against the declared schema once at rule activation, before any handler
runs, and fails with a `ConfigurationError` identifying the rule and the
option path; handlers receive only already-resolved options. -/
def validateEnforceParameterCountOption (v : JsonValue) :
    Except ConfigurationError JsonValue :=
  if validEnforceParameterCount v then
    Except.ok v
  else
    Except.error { ruleName := "functional-parameters"
                   optionPath := "enforceParameterCount" }

/-- The parameter-count detector emits at most one descriptor, and it is
the whole-function descriptor keyed `paramCountAtLeastOne` or
`paramCountExactlyOne`. -/
theorem getParamCountViolations_cases (options : FPOptions) (node : FunctionNode) :
    getParamCountViolations options node = [] ∨
    getParamCountViolations options node =
      [{ node := FPTarget.func node, messageId := FPMessageId.paramCountAtLeastOne }] ∨
    getParamCountViolations options node =
      [{ node := FPTarget.func node, messageId := FPMessageId.paramCountExactlyOne }] := by
  unfold getParamCountViolations
  split
  · exact Or.inl rfl
  split
  · exact Or.inr (Or.inl rfl)
  split
  · exact Or.inr (Or.inr rfl)
  · exact Or.inl rfl

/-- Every descriptor of the rest-parameter detector is keyed `restParam`. -/
theorem getRestParamViolations_messageIds (options : FPOptions) (node : FunctionNode) :
    ∀ d ∈ getRestParamViolations options node, d.messageId = FPMessageId.restParam := by
  unfold getRestParamViolations
  split
  · split <;> simp
  · simp

/-- No descriptor of the parameter-count detector is keyed `restParam`. -/
theorem getParamCountViolations_not_restParam (options : FPOptions) (node : FunctionNode) :
    ∀ d ∈ getParamCountViolations options node, d.messageId ≠ FPMessageId.restParam := by
  rcases getParamCountViolations_cases options node with h | h | h <;> rw [h] <;> simp

/-- Claim C1: whenever `shouldIgnorePattern` holds for the node, both
composed handlers of the functional-parameters rule (`checkFunction` and
`checkIdentifier`) return a `RuleResult` with an empty descriptor
sequence, regardless of what the individual detectors would report. -/
theorem C1_ignore_short_circuit (fnode : FunctionNode) (inode : Identifier)
    (ctx : RuleContext) (options : FPOptions)
    (hf : shouldIgnorePattern fnode.derivedName ctx options.obj.ignorePattern = true)
    (hi : shouldIgnorePattern (some inode.name) ctx options.obj.ignorePattern = true) :
    (checkFunction fnode ctx options).descriptors = [] ∧
    (checkIdentifier inode ctx options).descriptors = [] := by
  constructor
  · simp [checkFunction, hf]
  · simp [checkIdentifier, hi]

/-- Witness for C1 at a concrete ignored function node (a zero-parameter
rest-free function named `foo` with pattern `foo` configured, which would
otherwise violate the parameter count) and identifier `arguments` with
pattern `arguments` configured. -/
theorem C1_ignore_short_circuit_witness :
    (checkFunction
        { id := some "foo", params := [],
          parentContext := FunctionParentContext.otherContext }
        { filename := "file.ts" }
        { obj := { ignorePattern := some ["foo", "arguments"]
                   allowRestParameter := false
                   allowArgumentsKeyword := false
                   enforceParameterCount :=
                     EnforceParameterCount.simple ParameterCountOptions.atLeastOne } }
      ).descriptors = [] ∧
    (checkIdentifier
        { name := "arguments", parentContext := IdentifierParentContext.valueReference }
        { filename := "file.ts" }
        { obj := { ignorePattern := some ["foo", "arguments"]
                   allowRestParameter := false
                   allowArgumentsKeyword := false
                   enforceParameterCount :=
                     EnforceParameterCount.simple ParameterCountOptions.atLeastOne } }
      ).descriptors = [] :=
  C1_ignore_short_circuit _ _ _ _ (by decide) (by decide)

/-- Claim C2: with `enforceParameterCount = "atLeastOne"` and no
matching ignore pattern, a zero-parameter function that is not the
callee of an immediately-invoked call yields exactly one descriptor,
keyed `paramCountAtLeastOne`. -/
theorem C2_atLeastOne_zero_params (node : FunctionNode) (ctx : RuleContext)
    (options : FPOptions)
    (hepc : options.obj.enforceParameterCount =
      EnforceParameterCount.simple ParameterCountOptions.atLeastOne)
    (hparams : node.params = [])
    (hignore : shouldIgnorePattern node.derivedName ctx options.obj.ignorePattern = false)
    (_hiife : isIIFE node = false) :
    (checkFunction node ctx options).descriptors =
      [{ node := FPTarget.func node, messageId := FPMessageId.paramCountAtLeastOne }] := by
  simp [checkFunction, hignore, getRestParamViolations, hparams,
    getParamCountViolations, hepc, EnforceParameterCount.ignoreTheIIFE,
    EnforceParameterCount.countIsAtLeastOne]

/-- Witness for C2 at a concrete zero-parameter function declaration
outside any immediately-invoked call. -/
theorem C2_atLeastOne_zero_params_witness :
    (checkFunction
        { id := some "f", params := [],
          parentContext := FunctionParentContext.otherContext }
        { filename := "file.ts" }
        { obj := { ignorePattern := none
                   allowRestParameter := false
                   allowArgumentsKeyword := false
                   enforceParameterCount :=
                     EnforceParameterCount.simple ParameterCountOptions.atLeastOne } }
      ).descriptors =
      [{ node := FPTarget.func
           { id := some "f", params := [],
             parentContext := FunctionParentContext.otherContext },
         messageId := FPMessageId.paramCountAtLeastOne }] :=
  C2_atLeastOne_zero_params _ _ _ rfl rfl (by decide) (by decide)

/-- Claim C3: with `enforceParameterCount = \x7bcount: "atLeastOne",
ignoreIIFE: true\x7d`, a zero-parameter function that is the callee of an
immediately-invoked call yields zero descriptors. -/
theorem C3_iife_exemption (node : FunctionNode) (ctx : RuleContext)
    (options : FPOptions)
    (hepc : options.obj.enforceParameterCount =
      EnforceParameterCount.obj ParameterCountOptions.atLeastOne true)
    (hparams : node.params = [])
    (hiife : isIIFE node = true) :
    (checkFunction node ctx options).descriptors = [] := by
  by_cases hig : shouldIgnorePattern node.derivedName ctx options.obj.ignorePattern
  · simp [checkFunction, hig]
  · simp [checkFunction, hig, getRestParamViolations, hparams,
      getParamCountViolations, hepc, hiife, EnforceParameterCount.ignoreTheIIFE]

/-- Witness for C3 at a concrete zero-parameter function expression that
is the callee of an immediately-invoked call. -/
theorem C3_iife_exemption_witness :
    (checkFunction
        { id := none, params := [],
          parentContext := FunctionParentContext.calleeOfImmediateCall }
        { filename := "file.ts" }
        { obj := { ignorePattern := none
                   allowRestParameter := false
                   allowArgumentsKeyword := false
                   enforceParameterCount :=
                     EnforceParameterCount.obj ParameterCountOptions.atLeastOne true } }
      ).descriptors = [] :=
  C3_iife_exemption _ _ _ rfl rfl (by decide)

/-- Claim C4: with `allowRestParameter = false` and no matching ignore
pattern, a function whose final parameter is a rest element yields
exactly one `restParam` descriptor, prepended to whatever the
parameter-count detector reports under any `enforceParameterCount`
setting; the total is two descriptors exactly when the count detector
also fires. -/
theorem C4_rest_param (node : FunctionNode) (ctx : RuleContext)
    (options : FPOptions) (p : Param)
    (hallow : options.obj.allowRestParameter = false)
    (hignore : shouldIgnorePattern node.derivedName ctx options.obj.ignorePattern = false)
    (hlast : node.params.getLast? = some p)
    (hrest : isRestElement p = true) :
    (checkFunction node ctx options).descriptors =
      { node := FPTarget.param p, messageId := FPMessageId.restParam } ::
        getParamCountViolations options node ∧
    ((checkFunction node ctx options).descriptors.filter
        (fun d => d.messageId = FPMessageId.restParam)).length = 1 ∧
    (checkFunction node ctx options).descriptors.length =
      1 + (getParamCountViolations options node).length := by
  have hdesc : (checkFunction node ctx options).descriptors =
      { node := FPTarget.param p, messageId := FPMessageId.restParam } ::
        getParamCountViolations options node := by
    simp [checkFunction, hignore, getRestParamViolations, hlast, hallow, hrest]
  refine ⟨hdesc, ?_, ?_⟩
  · rw [hdesc]
    rcases getParamCountViolations_cases options node with h | h | h <;>
      rw [h] <;> simp
  · rw [hdesc]
    simp [Nat.add_comm]

/-- Witness for C4 at a concrete one-parameter function whose only
parameter is a rest element, under the default object configuration
(where the count detector does not fire, so the total is one). -/
theorem C4_rest_param_witness :
    (checkFunction
        { id := some "g", params := [Param.restElement "xs"],
          parentContext := FunctionParentContext.otherContext }
        { filename := "file.ts" } fpDefaultOptions).descriptors =
      { node := FPTarget.param (Param.restElement "xs"),
        messageId := FPMessageId.restParam } ::
        getParamCountViolations fpDefaultOptions
          { id := some "g", params := [Param.restElement "xs"],
            parentContext := FunctionParentContext.otherContext } ∧
    ((checkFunction
        { id := some "g", params := [Param.restElement "xs"],
          parentContext := FunctionParentContext.otherContext }
        { filename := "file.ts" } fpDefaultOptions).descriptors.filter
        (fun d => d.messageId = FPMessageId.restParam)).length = 1 ∧
    (checkFunction
        { id := some "g", params := [Param.restElement "xs"],
          parentContext := FunctionParentContext.otherContext }
        { filename := "file.ts" } fpDefaultOptions).descriptors.length =
      1 + (getParamCountViolations fpDefaultOptions
          { id := some "g", params := [Param.restElement "xs"],
            parentContext := FunctionParentContext.otherContext }).length :=
  C4_rest_param _ _ _ _ rfl (by decide) rfl rfl

/-- Claim C5: a call expression whose callee is the member access
`Promise.reject` (identifier object `Promise`, identifier property
`reject`) yields exactly one descriptor keyed `generic` from
`checkCallExpression`, while a `Promise.resolve` call yields zero
descriptors, for any argument lists. -/
theorem C5_promise_reject_detection (ctx : RuleContext)
    (args args2 : List Expression) :
    (checkCallExpression
        { callee := Expression.memberExpression (Expression.identifier "Promise")
            (Expression.identifier "reject"),
          arguments := args } ctx).descriptors =
      [{ node :=
           { callee :=
               Expression.memberExpression (Expression.identifier "Promise")
                 (Expression.identifier "reject"),
             arguments := args },
         messageId := NPRMessageId.generic }] ∧
    (checkCallExpression
        { callee := Expression.memberExpression (Expression.identifier "Promise")
            (Expression.identifier "resolve"),
          arguments := args2 } ctx).descriptors = [] := by
  constructor <;>
    simp [checkCallExpression, calleeIsPromiseReject, isMemberExpression,
      isIdentifier, Expression.identName]

/-- Claim C6: for a function node the ignore pattern does not match, the
descriptor sequence of `checkFunction` is exactly the output of
`getRestParamViolations` followed by the output of
`getParamCountViolations`; every descriptor of the former is keyed
`restParam` and none of the latter is, so a `restParam` descriptor always
precedes any parameter-count descriptor in the same `RuleResult`. -/
theorem C6_detector_concatenation_order (node : FunctionNode) (ctx : RuleContext)
    (options : FPOptions)
    (hignore : shouldIgnorePattern node.derivedName ctx options.obj.ignorePattern = false) :
    (checkFunction node ctx options).descriptors =
      getRestParamViolations options node ++ getParamCountViolations options node ∧
    (∀ d ∈ getRestParamViolations options node,
      d.messageId = FPMessageId.restParam) ∧
    (∀ d ∈ getParamCountViolations options node,
      d.messageId ≠ FPMessageId.restParam) := by
  refine ⟨?_, getRestParamViolations_messageIds options node,
    getParamCountViolations_not_restParam options node⟩
  simp [checkFunction, hignore]

/-- Witness for C6 at a concrete un-ignored function node that triggers
both detectors under the default options. -/
theorem C6_detector_concatenation_order_witness :
    (checkFunction
        { id := some "h", params := [Param.restElement "xs"],
          parentContext := FunctionParentContext.otherContext }
        { filename := "file.ts" }
        { obj := { ignorePattern := none
                   allowRestParameter := false
                   allowArgumentsKeyword := false
                   enforceParameterCount :=
                     EnforceParameterCount.simple ParameterCountOptions.exactlyOne } }
      ).descriptors =
      getRestParamViolations
        { obj := { ignorePattern := none
                   allowRestParameter := false
                   allowArgumentsKeyword := false
                   enforceParameterCount :=
                     EnforceParameterCount.simple ParameterCountOptions.exactlyOne } }
        { id := some "h", params := [Param.restElement "xs"],
          parentContext := FunctionParentContext.otherContext } ++
      getParamCountViolations
        { obj := { ignorePattern := none
                   allowRestParameter := false
                   allowArgumentsKeyword := false
                   enforceParameterCount :=
                     EnforceParameterCount.simple ParameterCountOptions.exactlyOne } }
        { id := some "h", params := [Param.restElement "xs"],
          parentContext := FunctionParentContext.otherContext } :=
  (C6_detector_concatenation_order _ _ _ (by decide)).1

/-- Claim C7: the declared `oneOf` schema of `enforceParameterCount`
accepts each of the four alternatives — `"atLeastOne"`, `"exactlyOne"`,
the boolean `false`, and an object with fields `count` and `ignoreIIFE` —
and validation rejects a fifth shape such as a number or `true` with a
`ConfigurationError` naming the rule and the option path, at activation
time (handlers receive only already-validated options and raise
nothing). -/
theorem C7_option_union_discrimination :
    validateEnforceParameterCountOption (JsonValue.str "atLeastOne") =
      Except.ok (JsonValue.str "atLeastOne") ∧
    validateEnforceParameterCountOption (JsonValue.str "exactlyOne") =
      Except.ok (JsonValue.str "exactlyOne") ∧
    validateEnforceParameterCountOption (JsonValue.bool false) =
      Except.ok (JsonValue.bool false) ∧
    (∀ b : Bool,
      validateEnforceParameterCountOption
        (JsonValue.obj [("count", JsonValue.str "atLeastOne"),
          ("ignoreIIFE", JsonValue.bool b)]) =
      Except.ok (JsonValue.obj [("count", JsonValue.str "atLeastOne"),
        ("ignoreIIFE", JsonValue.bool b)])) ∧
    (∀ b : Bool,
      validateEnforceParameterCountOption
        (JsonValue.obj [("count", JsonValue.str "exactlyOne"),
          ("ignoreIIFE", JsonValue.bool b)]) =
      Except.ok (JsonValue.obj [("count", JsonValue.str "exactlyOne"),
        ("ignoreIIFE", JsonValue.bool b)])) ∧
    (∀ n : Int,
      validateEnforceParameterCountOption (JsonValue.num n) =
      Except.error { ruleName := "functional-parameters"
                     optionPath := "enforceParameterCount" }) ∧
    validateEnforceParameterCountOption (JsonValue.bool true) =
      Except.error { ruleName := "functional-parameters"
                     optionPath := "enforceParameterCount" } := by
  refine ⟨rfl, rfl, rfl, ?_, ?_, ?_, rfl⟩
  · intro b; cases b <;> rfl
  · intro b; cases b <;> rfl
  · intro n
    simp [validateEnforceParameterCountOption, validEnforceParameterCount,
      matchesFalseAlternative, matchesStringAlternative, matchesObjectAlternative]

/-- Claim C8: every handler of both rules is deterministic — two
invocations on the same `(node, context, options)` triple return the
same `RuleResult`, hence descriptor sequences identical in length, order
and message keys.  The handlers are pure functions of their arguments,
so the results coincide definitionally. -/
theorem C8_handler_determinism (fnode : FunctionNode) (inode : Identifier)
    (cnode : CallExpression) (ctx : RuleContext) (options : FPOptions) :
    checkFunction fnode ctx options = checkFunction fnode ctx options ∧
    checkIdentifier inode ctx options = checkIdentifier inode ctx options ∧
    checkCallExpression cnode ctx = checkCallExpression cnode ctx :=
  ⟨rfl, rfl, rfl⟩

/-- Claim C9: the `ignoreIIFE` exemption applies only to zero-parameter
functions — a function with at least one parameter that violates
`\x7bcount: "exactlyOne", ignoreIIFE: true\x7d` receives a
`paramCountExactlyOne` descriptor whatever its parent context, in
particular when it is the callee of an immediately-invoked call. -/
theorem C9_iife_exemption_only_zero_params (node : FunctionNode)
    (options : FPOptions)
    (hepc : options.obj.enforceParameterCount =
      EnforceParameterCount.obj ParameterCountOptions.exactlyOne true)
    (hge : 1 ≤ node.params.length)
    (hne : node.params.length ≠ 1) :
    getParamCountViolations options node =
      [{ node := FPTarget.func node, messageId := FPMessageId.paramCountExactlyOne }] := by
  have h0 : node.params.length ≠ 0 := by omega
  simp [getParamCountViolations, hepc, h0, hne,
    EnforceParameterCount.ignoreTheIIFE, EnforceParameterCount.countIsAtLeastOne,
    EnforceParameterCount.countIsExactlyOne]

/-- Witness for C9 at a concrete two-parameter function that is the
callee of an immediately-invoked call. -/
theorem C9_iife_exemption_only_zero_params_witness :
    getParamCountViolations
      { obj := { ignorePattern := none
                 allowRestParameter := true
                 allowArgumentsKeyword := true
                 enforceParameterCount :=
                   EnforceParameterCount.obj ParameterCountOptions.exactlyOne true } }
      { id := none,
        params := [Param.identifierParam "a", Param.identifierParam "b"],
        parentContext := FunctionParentContext.calleeOfImmediateCall } =
      [{ node := FPTarget.func
           { id := none,
             params := [Param.identifierParam "a", Param.identifierParam "b"],
             parentContext := FunctionParentContext.calleeOfImmediateCall },
         messageId := FPMessageId.paramCountExactlyOne }] :=
  C9_iife_exemption_only_zero_params _ _ rfl (by decide) (by decide)

/-- Claim C10: `checkCallExpression` reports nothing when the callee is
not a member access with identifier object and identifier property — a
bare call `reject(...)`, a computed access `Promise["reject"](...)`
(literal property), and a nested access `a.Promise.reject(...)` (member
object) all yield zero descriptors — and the reported message keys never
depend on the call's arguments. -/
theorem C10_non_member_callee_never_reported (ctx : RuleContext) :
    (∀ (name : String) (args : List Expression),
      (checkCallExpression
        { callee := Expression.identifier name, arguments := args } ctx).descriptors = []) ∧
    (∀ (obj : Expression) (lit : String) (args : List Expression),
      (checkCallExpression
        { callee := Expression.memberExpression obj (Expression.literal lit),
          arguments := args } ctx).descriptors = []) ∧
    (∀ (o p prop : Expression) (args : List Expression),
      (checkCallExpression
        { callee := Expression.memberExpression (Expression.memberExpression o p) prop,
          arguments := args } ctx).descriptors = []) ∧
    (∀ (callee : Expression) (args args2 : List Expression),
      ((checkCallExpression { callee := callee, arguments := args } ctx).descriptors.map
          (fun d => d.messageId)) =
      ((checkCallExpression { callee := callee, arguments := args2 } ctx).descriptors.map
          (fun d => d.messageId))) := by
  refine ⟨?_, ?_, ?_, ?_⟩
  · intro name args
    simp [checkCallExpression, calleeIsPromiseReject, isMemberExpression]
  · intro obj lit args
    simp [checkCallExpression, calleeIsPromiseReject, isMemberExpression, isIdentifier]
  · intro o p prop args
    simp [checkCallExpression, calleeIsPromiseReject, isMemberExpression, isIdentifier]
  · intro callee args args2
    by_cases h : calleeIsPromiseReject callee <;> simp [checkCallExpression, h]
